import Mathlib

/-!
Verification of the centralized HTTP client of the DataGen single-page
application (source file: the API client module exporting `ApiError`,
`request`, the `api` verb helpers and `uploadFile`).

The client wraps the browser platform primitives `fetch`, `JSON.parse`,
`JSON.stringify`, `setTimeout`/`clearTimeout` and `AbortController`.
Those primitives are not part of the repository, so they are modelled
here explicitly:

* JavaScript/JSON values are modelled by the inductive type `Json`
  (numbers as integers, which suffices for every property considered).
  The distinction between the JavaScript values `undefined` and `null`
  is kept: an `Option Json` field is `none` exactly where the
  JavaScript value would be `undefined` (for instance an omitted
  constructor argument), while JavaScript `null` is `some Json.null`.
* `JSON.parse` is modelled by the executable parser `jsonParse`; it
  either returns a parsed `Json` value or the parser's own error
  message (what would be the thrown SyntaxError's `message`).
* `JSON.stringify` is modelled by `jsonStringify`.
* The outcome of one `fetch` call is a `FetchOutcome`: either a
  delivered `Response` (status, status text, body text) or a thrown
  exception.  A thrown JavaScript `Error` instance is identified by its
  `name` and `message`; a thrown non-`Error` value has no further
  structure.
* Timing is modelled by `NetBehavior` (when, if ever, the network side
  would complete) together with `fetchOutcome`, which decides the race
  between the network and the abort timer armed by the client: the
  timer fires at `timeout` milliseconds, so the network wins exactly
  when it completes strictly earlier, and otherwise the `fetch`
  promise rejects with an Error named "AbortError".
-/

/-- JSON values (JavaScript structured values).  Numbers are modelled as
integers. -/
inductive Json where
  | null : Json
  | bool (b : Bool) : Json
  | num (n : Int) : Json
  | str (s : String) : Json
  | arr (elems : List Json) : Json
  | obj (members : List (String × Json)) : Json

/-- JavaScript truthiness of a `Json` value: `null`, `false`, `0` and the
empty string are falsy; every array and object is truthy. -/
def truthy : Json → Bool
  | .null => false
  | .bool b => b
  | .num n => n != 0
  | .str s => s != ""
  | .arr _ => true
  | .obj _ => true

mutual

/-- Model of `JSON.stringify` on a defined value. -/
def jsonStringify : Json → String
  | .null => "null"
  | .bool true => "true"
  | .bool false => "false"
  | .num n => toString n
  | .str s => "\"" ++ s ++ "\""
  | .arr elems => "[" ++ stringifyElems elems ++ "]"
  | .obj members => "\x7b" ++ stringifyMembers members ++ "\x7d"

/-- Comma-separated serialization of JSON array elements. -/
def stringifyElems : List Json → String
  | [] => ""
  | [v] => jsonStringify v
  | v :: v' :: rest => jsonStringify v ++ "," ++ stringifyElems (v' :: rest)

/-- Comma-separated serialization of JSON object members. -/
def stringifyMembers : List (String × Json) → String
  | [] => ""
  | [(k, v)] => "\"" ++ k ++ "\":" ++ jsonStringify v
  | (k, v) :: m :: rest =>
      "\"" ++ k ++ "\":" ++ jsonStringify v ++ "," ++ stringifyMembers (m :: rest)

end

/-- JSON whitespace. -/
def isJsonWs (c : Char) : Bool :=
  c = ' ' || c = '\n' || c = '\t' || c = '\r'

/-- Drop leading JSON whitespace. -/
def skipWs : List Char → List Char
  | [] => []
  | c :: cs => if isJsonWs c then skipWs cs else c :: cs

/-- Unescape one character of a JSON string escape sequence. -/
def escChar (c : Char) : Option Char :=
  if c = '"' then some '"'
  else if c = '\\' then some '\\'
  else if c = '/' then some '/'
  else if c = 'n' then some '\n'
  else if c = 't' then some '\t'
  else if c = 'r' then some '\r'
  else if c = 'b' then some (Char.ofNat 8)
  else if c = 'f' then some (Char.ofNat 12)
  else none

/-- Scan the remainder of a JSON string literal (the opening quote has
already been consumed); returns the decoded string and the rest of the
input. -/
def scanString : List Char → Option (String × List Char)
  | [] => none
  | c :: cs =>
    if c = '"' then some ("", cs)
    else if c = '\\' then
      match cs with
      | [] => none
      | e :: cs' =>
        match escChar e with
        | none => none
        | some d =>
          match scanString cs' with
          | none => none
          | some (s, rest) => some (String.singleton d ++ s, rest)
    else
      match scanString cs with
      | none => none
      | some (s, rest) => some (String.singleton c ++ s, rest)

/-- Scan a maximal run of decimal digits. -/
def scanDigits : List Char → List Char × List Char
  | [] => ([], [])
  | c :: cs =>
    if c.isDigit then
      let (ds, rest) := scanDigits cs
      (c :: ds, rest)
    else ([], c :: cs)

/-- Numeric value of a digit run. -/
def digitsToNat (ds : List Char) : Nat :=
  ds.foldl (fun a c => a * 10 + (c.toNat - 48)) 0

mutual

/-- Parse one JSON value; `fuel` bounds the recursion depth. -/
def parseValue (fuel : Nat) (input : List Char) : Except String (Json × List Char) :=
  match fuel with
  | 0 => .error "JSON input too deeply nested"
  | fuel' + 1 =>
    match skipWs input with
    | [] => .error "Unexpected end of JSON input"
    | c :: cs =>
      if c = 'n' then
        match cs with
        | 'u' :: 'l' :: 'l' :: rest => .ok (Json.null, rest)
        | _ => .error "Unexpected token n in JSON"
      else if c = 't' then
        match cs with
        | 'r' :: 'u' :: 'e' :: rest => .ok (Json.bool true, rest)
        | _ => .error "Unexpected token t in JSON"
      else if c = 'f' then
        match cs with
        | 'a' :: 'l' :: 's' :: 'e' :: rest => .ok (Json.bool false, rest)
        | _ => .error "Unexpected token f in JSON"
      else if c = '"' then
        match scanString cs with
        | some (s, rest) => .ok (Json.str s, rest)
        | none => .error "Unterminated string in JSON"
      else if c = '-' then
        match scanDigits cs with
        | ([], _) => .error "Unexpected token - in JSON"
        | (ds, rest) => .ok (Json.num (-(digitsToNat ds : Int)), rest)
      else if c.isDigit then
        match scanDigits (c :: cs) with
        | (ds, rest) => .ok (Json.num (digitsToNat ds), rest)
      else if c = '\x7b' then
        match skipWs cs with
        | '\x7d' :: rest => .ok (Json.obj [], rest)
        | _ => parseMembers fuel' cs []
      else if c = '[' then
        match skipWs cs with
        | ']' :: rest => .ok (Json.arr [], rest)
        | _ => parseElements fuel' cs []
      else .error ("Unexpected token " ++ String.singleton c ++ " in JSON")

/-- Parse the elements of a JSON array after the opening bracket. -/
def parseElements (fuel : Nat) (input : List Char) (acc : List Json) :
    Except String (Json × List Char) :=
  match fuel with
  | 0 => .error "JSON input too deeply nested"
  | fuel' + 1 =>
    match parseValue fuel' input with
    | .error e => .error e
    | .ok (v, rest) =>
      match skipWs rest with
      | ',' :: rest' => parseElements fuel' rest' (acc ++ [v])
      | ']' :: rest' => .ok (Json.arr (acc ++ [v]), rest')
      | _ => .error "Expected comma or closing bracket after JSON array element"

/-- Parse the members of a JSON object after the opening brace. -/
def parseMembers (fuel : Nat) (input : List Char) (acc : List (String × Json)) :
    Except String (Json × List Char) :=
  match fuel with
  | 0 => .error "JSON input too deeply nested"
  | fuel' + 1 =>
    match skipWs input with
    | '"' :: cs =>
      match scanString cs with
      | none => .error "Unterminated string in JSON"
      | some (k, rest) =>
        match skipWs rest with
        | ':' :: rest' =>
          match parseValue fuel' rest' with
          | .error e => .error e
          | .ok (v, rest2) =>
            match skipWs rest2 with
            | ',' :: rest3 => parseMembers fuel' rest3 (acc ++ [(k, v)])
            | '\x7d' :: rest3 => .ok (Json.obj (acc ++ [(k, v)]), rest3)
            | _ => .error "Expected comma or closing brace after JSON object member"
        | _ => .error "Expected colon after JSON object key"
    | _ => .error "Expected string key in JSON object"

end

/-- Model of `JSON.parse`: either the parsed value, or the parser's error
message (the `message` of the SyntaxError `JSON.parse` would throw). -/
def jsonParse (s : String) : Except String Json :=
  match parseValue (s.length + 1) s.toList with
  | .error e => .error e
  | .ok (v, rest) =>
    match skipWs rest with
    | [] => .ok v
    | _ => .error "Unexpected non-whitespace character after JSON data"

/-!
The client's data model, translated from the source.
-/

/-- The custom error class `ApiError` of the client.  `data` is the
optional third constructor argument: `none` models the argument being
omitted (JavaScript `undefined`), `some Json.null` models passing the
JavaScript value `null`. -/
structure ApiError where
  status : Nat
  statusText : String
  data : Option Json := none

/-- The `Error.message` the `ApiError` constructor installs via
`super`. -/
def ApiError.message (e : ApiError) : String :=
  "API Error: " ++ toString e.status ++ " " ++ e.statusText

/-- The `Error.name` the `ApiError` constructor installs. -/
def ApiError.errorName (_ : ApiError) : String := "ApiError"

/-- A delivered HTTP response as the client observes it: status code,
status text, and the body text (`response.text()`; `response.json()` is
`jsonParse` of that text). -/
structure Response where
  status : Nat
  statusText : String
  body : String

/-- The platform's `response.ok`: status in the 2xx success range. -/
def Response.ok (r : Response) : Bool :=
  200 ≤ r.status && r.status ≤ 299

/-- What one `fetch` promise does: deliver a response, reject with a
JavaScript `Error` (identified by its `name` and `message`), or reject
with a non-`Error` value. -/
inductive FetchOutcome where
  | success (r : Response)
  | throwErr (name message : String)
  | throwNonError

/-- A value thrown inside the `try` block of `request`: the client's own
`ApiError` (thrown on a non-2xx response), a platform `Error` (from
`fetch` or from `JSON.parse`), or a non-`Error` value. -/
inductive Thrown where
  | api (e : ApiError)
  | err (name message : String)
  | other

/-- Whether a thrown value is the client's normalized error type
(`error instanceof ApiError`). -/
def Thrown.isNormalized : Thrown → Bool
  | .api _ => true
  | _ => false

/-- The `catch` block of `request` (source lines 73-88): an `ApiError`
is rethrown as is; an `Error` named "AbortError" becomes the sentinel
`ApiError 408 "Request Timeout"` (with `data` omitted); any other
`Error` becomes `ApiError 0` with the error's message; a non-`Error`
thrown value becomes `ApiError 0 "Unknown Error"`. -/
def normalizeCatch : Thrown → ApiError
  | .api e => e
  | .err name message =>
      if name = "AbortError" then { status := 408, statusText := "Request Timeout" }
      else { status := 0, statusText := message }
  | .other => { status := 0, statusText := "Unknown Error" }

/-- The error-detail extraction `await response.json().catch(() => null)`
used on a failure response: the parsed body when it parses, otherwise
the JavaScript value `null`. -/
def errorDetail (body : String) : Json :=
  match jsonParse body with
  | .ok v => v
  | .error _ => Json.null

/-- The `try` block of `request` (source lines 48-72), given what the
`fetch` promise did.  A raw platform exception is re-raised as a
`Thrown` value; a non-2xx response raises the `ApiError` built on line
65; a 2xx response with empty body yields the empty object; otherwise
the body is `JSON.parse`d, a parse failure raising the SyntaxError the
parser throws. -/
def tryRequest : FetchOutcome → Except Thrown Json
  | .throwErr name message => .error (.err name message)
  | .throwNonError => .error .other
  | .success r =>
    if r.ok = false then
      .error (.api { status := r.status, statusText := r.statusText,
                     data := some (errorDetail r.body) })
    else if r.body = "" then
      .ok (Json.obj [])
    else
      match jsonParse r.body with
      | .ok v => .ok v
      | .error msg => .error (.err "SyntaxError" msg)

/-- The whole body of `request` for one fetch outcome: the `try` block
wrapped in the `catch` block, every thrown value normalized through
`normalizeCatch`. -/
def handleOutcome (o : FetchOutcome) : Except ApiError Json :=
  match tryRequest o with
  | .ok v => .ok v
  | .error t => .error (normalizeCatch t)

/-- The body of `request` instrumented with the state of the abort
timer.  The second component is whether the timer armed by
`setTimeout(() => controller.abort(), timeout)` is still armed when the
call returns: `setTimeout` sets it, every `clearTimeout(timeoutId)` in
the source (line 60 after the `fetch` await, line 74 at the top of the
`catch` block) clears it.  The control flow mirrors the source: a path
that throws out of the `try` block always enters the `catch` block and
so always reaches the `clearTimeout` on line 74. -/
def requestWithTimer (o : FetchOutcome) : Except ApiError Json × Bool :=
  let armed := true
  match o with
  | .success r =>
    let armed := false
    if r.ok = false then
      let thrown := Thrown.api { status := r.status, statusText := r.statusText,
                                 data := some (errorDetail r.body) }
      let armed := false
      (.error (normalizeCatch thrown), armed)
    else if r.body = "" then
      (.ok (Json.obj []), armed)
    else
      match jsonParse r.body with
      | .ok v => (.ok v, armed)
      | .error msg =>
        let armed := false
        (.error (normalizeCatch (.err "SyntaxError" msg)), armed)
  | .throwErr name message =>
    let armed := false
    (.error (normalizeCatch (.err name message)), armed)
  | .throwNonError =>
    let armed := false
    (.error (normalizeCatch .other), armed)

/-!
Timing model: the race between the network and the abort timer.
-/

/-- How the network side of one call behaves: deliver a response at
time `t`, fail with a thrown `Error` at time `t`, fail with a thrown
non-`Error` value at time `t`, or never complete. -/
inductive NetBehavior where
  | responds (t : Nat) (r : Response)
  | netError (t : Nat) (name message : String)
  | netThrowsNonError (t : Nat)
  | hangs

/-- The race between the network and the abort timer armed for
`timeout` milliseconds: the network outcome is delivered only if it
completes strictly before the timer fires; otherwise the timer aborts
the call and the `fetch` promise rejects with an `Error` named
"AbortError".  In particular a response that would arrive at or after
`timeout` (a late response) is discarded. -/
def fetchOutcome (nb : NetBehavior) (timeout : Nat) : FetchOutcome :=
  match nb with
  | .responds t r =>
      if t < timeout then .success r
      else .throwErr "AbortError" "signal is aborted without reason"
  | .netError t name message =>
      if t < timeout then .throwErr name message
      else .throwErr "AbortError" "signal is aborted without reason"
  | .netThrowsNonError t =>
      if t < timeout then .throwNonError
      else .throwErr "AbortError" "signal is aborted without reason"
  | .hangs => .throwErr "AbortError" "signal is aborted without reason"

/-- Whether the timer fires before the network completes: the
configured timeout elapses before any response (or network failure)
arrives. -/
def timesOut (nb : NetBehavior) (timeout : Nat) : Bool :=
  match nb with
  | .responds t _ => timeout ≤ t
  | .netError t _ _ => timeout ≤ t
  | .netThrowsNonError t => timeout ≤ t
  | .hangs => true

/-!
Construction of the outgoing request.
-/

/-- `API_BASE_URL = import.meta.env.VITE_API_BASE_URL || '/api'`: the
environment value when it is set and non-empty (truthy), else the
default `/api`. -/
def API_BASE_URL (viteApiBaseUrl : Option String) : String :=
  match viteApiBaseUrl with
  | none => "/api"
  | some s => if s = "" then "/api" else s

/-- The `RequestOptions` of the source: an optional `body` (a
JavaScript value; `none` is `undefined`), a `timeout` defaulting to
30000 ms, and pass-through init fields (headers, method).  The caller's
`signal` and `credentials`, if any, are overridden by the client and
are not modelled. -/
structure RequestOptions where
  body : Option Json := none
  timeout : Nat := 30000
  headers : List (String × String) := []
  method : Option String := none

/-- JavaScript object lookup on a key/value list built left to right:
the value of the last binding of the key, as in an object literal where
later spread entries override earlier ones. -/
def objGet : List (String × String) → String → Option String
  | [], _ => none
  | (k, v) :: rest, key =>
    match objGet rest key with
    | some w => some w
    | none => if k = key then some v else none

/-- The argument object passed to `fetch` by `request`, plus the target
URL. -/
structure FetchRequest where
  url : String
  method : Option String
  credentials : String
  headers : List (String × String)
  body : Option String

/-- Construction of the `fetch` call in `request` (source lines 49-58):
URL is the base URL concatenated with the endpoint; `credentials` is
always "include"; the headers object is built with
`Content-Type: application/json` first and the caller's headers spread
after it (so the caller's binding of a key wins); the body is
`JSON.stringify(body)` when `body` is truthy and absent (`undefined`)
otherwise. -/
def buildRequest (env : Option String) (endpoint : String) (opts : RequestOptions) :
    FetchRequest :=
  { url := API_BASE_URL env ++ endpoint
    method := opts.method
    credentials := "include"
    headers := ("Content-Type", "application/json") :: opts.headers
    body :=
      match opts.body with
      | some b => if truthy b then some (jsonStringify b) else none
      | none => none }

/-- The whole of `request` for one call: the request actually issued,
and the result of handling the outcome of the race between network and
timer. -/
def request (env : Option String) (endpoint : String) (opts : RequestOptions)
    (nb : NetBehavior) : FetchRequest × Except ApiError Json :=
  (buildRequest env endpoint opts, handleOutcome (fetchOutcome nb opts.timeout))

/-!
The verb helpers of the exported `api` object.
-/

namespace api

/-- `api.get`: `request(endpoint, { ...options, method: 'GET' })`. -/
def get (env : Option String) (endpoint : String) (opts : RequestOptions)
    (nb : NetBehavior) : FetchRequest × Except ApiError Json :=
  request env endpoint { opts with method := some "GET" } nb

/-- `api.post`: `request(endpoint, { ...options, method: 'POST', body })`. -/
def post (env : Option String) (endpoint : String) (body : Option Json)
    (opts : RequestOptions) (nb : NetBehavior) : FetchRequest × Except ApiError Json :=
  request env endpoint { opts with method := some "POST", body := body } nb

/-- `api.put`: `request(endpoint, { ...options, method: 'PUT', body })`. -/
def put (env : Option String) (endpoint : String) (body : Option Json)
    (opts : RequestOptions) (nb : NetBehavior) : FetchRequest × Except ApiError Json :=
  request env endpoint { opts with method := some "PUT", body := body } nb

/-- `api.patch`: `request(endpoint, { ...options, method: 'PATCH', body })`. -/
def patch (env : Option String) (endpoint : String) (body : Option Json)
    (opts : RequestOptions) (nb : NetBehavior) : FetchRequest × Except ApiError Json :=
  request env endpoint { opts with method := some "PATCH", body := body } nb

/-- `api.delete`: `request(endpoint, { ...options, method: 'DELETE' })`. -/
def del (env : Option String) (endpoint : String) (opts : RequestOptions)
    (nb : NetBehavior) : FetchRequest × Except ApiError Json :=
  request env endpoint { opts with method := some "DELETE" } nb

end api

/-!
The file-upload helper `uploadFile`.
-/

/-- A browser `File` handle as the upload helper sees it. -/
structure JsFile where
  fileName : String

/-- One part of a `FormData` payload: the appended file, or an appended
string field. -/
inductive FormPart where
  | filePart (f : JsFile)
  | fieldPart (s : String)

/-- The `FormData` built by `uploadFile` (source lines 115-122): the
file appended under the fixed field name "file", then one part per
entry of `additionalData` in order. -/
def buildFormData (file : JsFile) (additionalData : Option (List (String × String))) :
    List (String × FormPart) :=
  ("file", .filePart file) ::
    (match additionalData with
     | none => []
     | some fields => fields.map (fun kv => (kv.1, .fieldPart kv.2)))

/-- The argument object passed to `fetch` by `uploadFile`, plus the
target URL. -/
structure UploadRequest where
  url : String
  method : String
  credentials : String
  headers : List (String × String)
  formData : List (String × FormPart)

/-- Construction of the `fetch` call in `uploadFile` (source lines
124-128): POST to the base URL concatenated with the endpoint, with
credentials included, the form payload as body, and no headers object
at all (in particular no explicit `Content-Type`). -/
def buildUploadRequest (env : Option String) (endpoint : String) (file : JsFile)
    (additionalData : Option (List (String × String))) : UploadRequest :=
  { url := API_BASE_URL env ++ endpoint
    method := "POST"
    credentials := "include"
    headers := []
    formData := buildFormData file additionalData }

/-- Response handling of `uploadFile` (source lines 130-135).  There is
no `try`/`catch` here: the error type is the raw `Thrown`, and only the
non-2xx branch produces a normalized `ApiError`.  A `fetch` rejection
propagates as thrown, and on a 2xx response `response.json()` is
returned directly, so a malformed (or empty) success body propagates
the parser's SyntaxError. -/
def uploadHandle : FetchOutcome → Except Thrown Json
  | .throwErr name message => .error (.err name message)
  | .throwNonError => .error .other
  | .success r =>
    if r.ok = false then
      .error (.api { status := r.status, statusText := r.statusText,
                     data := some (errorDetail r.body) })
    else
      match jsonParse r.body with
      | .ok v => .ok v
      | .error msg => .error (.err "SyntaxError" msg)

/-- When the `uploadFile` fetch settles: `uploadFile` arms no timer and
passes no signal, so the network outcome is delivered whenever it
completes, however late, and a hanging network call never settles
(`none`). -/
def uploadOutcome : NetBehavior → Option FetchOutcome
  | .responds _ r => some (.success r)
  | .netError _ name message => some (.throwErr name message)
  | .netThrowsNonError _ => some .throwNonError
  | .hangs => none

/-- The whole of `uploadFile` for one call: the request actually
issued, and — when the network settles at all — the raw (possibly
un-normalized) result. -/
def uploadFile (env : Option String) (endpoint : String) (file : JsFile)
    (additionalData : Option (List (String × String))) (nb : NetBehavior) :
    UploadRequest × Option (Except Thrown Json) :=
  (buildUploadRequest env endpoint file additionalData,
   (uploadOutcome nb).map uploadHandle)

/-!
Claims.
-/

/-- C1 (corrected), counterexample to the claim as stated: the
file-upload helper has no `try`/`catch`, so a network failure during an
upload propagates as the raw thrown platform exception, not as a
normalized `ApiError`. -/
theorem c1_upload_raw_counterexample :
    (uploadFile none "/analyzer/upload" { fileName := "data.csv" } none
        (.netError 5 "TypeError" "Failed to fetch")).2 =
      some (.error (.err "TypeError" "Failed to fetch"))
    ∧ Thrown.isNormalized (.err "TypeError" "Failed to fetch") = false :=
  ⟨rfl, rfl⟩

/-- C1 (corrected, amended): every call on the generic path resolves to
a parsed success value or a normalized `ApiError` — every value thrown
inside the `try` block is closed into `ApiError` by `normalizeCatch` —
while the file-upload helper normalizes only non-2xx responses into
`ApiError` and propagates raw platform exceptions un-normalized. -/
theorem c1_error_normalization :
    (∀ (o : FetchOutcome) (t : Thrown),
        tryRequest o = .error t → handleOutcome o = .error (normalizeCatch t))
    ∧ (∀ (o : FetchOutcome) (v : Json), tryRequest o = .ok v → handleOutcome o = .ok v)
    ∧ (∀ r : Response, r.ok = false →
        uploadHandle (.success r) =
          .error (.api { status := r.status, statusText := r.statusText,
                         data := some (errorDetail r.body) }))
    ∧ (∀ name message, uploadHandle (.throwErr name message) = .error (.err name message)) := by
  refine ⟨?_, ?_, ?_, fun _ _ => rfl⟩
  · intro o t h
    unfold handleOutcome
    rw [h]
  · intro o v h
    unfold handleOutcome
    rw [h]
  · intro r h
    simp [uploadHandle, h]

/-- Witness for C1's amended theorem at concrete inputs: a transport
failure on the generic path is normalized, and a 500 response on the
upload path is normalized. -/
theorem c1_error_normalization_witness :
    handleOutcome (.throwErr "TypeError" "Failed to fetch") =
      .error (normalizeCatch (.err "TypeError" "Failed to fetch"))
    ∧ uploadHandle (.success { status := 500, statusText := "Internal Server Error", body := "" }) =
        .error (.api { status := 500, statusText := "Internal Server Error",
                       data := some Json.null }) := by
  constructor
  · exact c1_error_normalization.1 (.throwErr "TypeError" "Failed to fetch")
      (.err "TypeError" "Failed to fetch") rfl
  · exact c1_error_normalization.2.2.1
      { status := 500, statusText := "Internal Server Error", body := "" } rfl

/-- C2 (confirmed): whenever the configured timeout elapses before any
network completion — including when a response exists but would arrive
late, which is discarded, and when the network hangs forever — the call
rejects with the sentinel `ApiError` of status 408 and status text
exactly "Request Timeout" and no `data`; a real server-sent 408
produces an `ApiError` whose `data` is `some` value (the parsed body or
the null placeholder), so it is distinguishable from the client-side
sentinel; and the default timeout is 30000 ms. -/
theorem c2_timeout_sentinel :
    (∀ (nb : NetBehavior) (timeout : Nat), timesOut nb timeout = true →
        handleOutcome (fetchOutcome nb timeout) =
          .error { status := 408, statusText := "Request Timeout", data := none })
    ∧ (∀ (r : Response) (t timeout : Nat), r.status = 408 →
        timesOut (.responds t r) timeout = false →
          handleOutcome (fetchOutcome (.responds t r) timeout) =
            .error { status := 408, statusText := r.statusText,
                     data := some (errorDetail r.body) }
          ∧ ({ status := 408, statusText := r.statusText,
               data := some (errorDetail r.body) } : ApiError) ≠
            { status := 408, statusText := "Request Timeout", data := none })
    ∧ ({} : RequestOptions).timeout = 30000 := by
  refine ⟨?_, ?_, rfl⟩
  · intro nb timeout h
    cases nb with
    | responds t r =>
      simp [timesOut] at h
      simp only [fetchOutcome]
      rw [if_neg (by omega)]
      rfl
    | netError t name message =>
      simp [timesOut] at h
      simp only [fetchOutcome]
      rw [if_neg (by omega)]
      rfl
    | netThrowsNonError t =>
      simp [timesOut] at h
      simp only [fetchOutcome]
      rw [if_neg (by omega)]
      rfl
    | hangs => rfl
  · intro r t timeout h408 hf
    simp [timesOut] at hf
    constructor
    · simp only [fetchOutcome]
      rw [if_pos (by omega)]
      simp [handleOutcome, tryRequest, Response.ok, h408, normalizeCatch]
    · simp [ApiError.mk.injEq]

/-- Witness for C2 at concrete inputs: a hanging network call rejects
with the sentinel, and an early real server 408 with unparseable body
carries a `data` value, unlike the sentinel. -/
theorem c2_timeout_sentinel_witness :
    handleOutcome (fetchOutcome .hangs 30000) =
      .error { status := 408, statusText := "Request Timeout", data := none }
    ∧ handleOutcome
        (fetchOutcome (.responds 5 { status := 408, statusText := "Request Timeout", body := "" }) 30000) =
      .error { status := 408, statusText := "Request Timeout", data := some Json.null } := by
  constructor
  · exact c2_timeout_sentinel.1 .hangs 30000 rfl
  · exact (c2_timeout_sentinel.2.1
      { status := 408, statusText := "Request Timeout", body := "" } 5 30000 rfl rfl).1

/-- C3 (corrected), counterexample to the claim as stated: a non-2xx
response whose body is not parseable JSON rejects with an `ApiError`
whose `data` is the null placeholder passed by
`response.json().catch(() => null)` — a present JavaScript `null`, not
an absent (`undefined`) detail. -/
theorem c3_detail_null_counterexample :
    handleOutcome
        (.success { status := 500, statusText := "Internal Server Error", body := "not json" }) =
      .error { status := 500, statusText := "Internal Server Error", data := some Json.null }
    ∧ (some Json.null : Option Json) ≠ none := by
  refine ⟨rfl, ?_⟩
  intro hc
  exact Option.noConfusion hc

/-- C3 (corrected, amended): every non-2xx response rejects with an
`ApiError` carrying the real status, the response's status text, and a
detail that equals the JSON-parsed body when it is parseable and is the
null value when it is not — the parse failure yields a null detail
rather than a secondary error. -/
theorem c3_http_error_detail :
    ∀ r : Response, r.ok = false →
      handleOutcome (.success r) =
        .error { status := r.status, statusText := r.statusText,
                 data := some (errorDetail r.body) }
      ∧ (∀ v, jsonParse r.body = .ok v → errorDetail r.body = v)
      ∧ (∀ msg, jsonParse r.body = .error msg → errorDetail r.body = Json.null) := by
  intro r h
  refine ⟨?_, ?_, ?_⟩
  · simp [handleOutcome, tryRequest, h, normalizeCatch]
  · intro v hv
    simp [errorDetail, hv]
  · intro msg hm
    simp [errorDetail, hm]

/-- Witness for C3's amended theorem at a concrete input: a 401 with a
parseable JSON body rejects with status 401 and the parsed body as
detail. -/
theorem c3_http_error_detail_witness :
    handleOutcome
        (.success
          { status := 401, statusText := "Unauthorized",
            body := "\x7b\"message\":\"Invalid credentials\"\x7d" }) =
      .error
        { status := 401, statusText := "Unauthorized",
          data := some (Json.obj [("message", Json.str "Invalid credentials")]) } :=
  (c3_http_error_detail
    { status := 401, statusText := "Unauthorized",
      body := "\x7b\"message\":\"Invalid credentials\"\x7d" } rfl).1

/-- C4 (confirmed): every 2xx response yields the JSON-decoded body as
the success value; an empty body yields the empty object value, which
is not null (and, being a success value, is neither an error nor an
absent value). -/
theorem c4_success_body :
    ∀ r : Response, r.ok = true →
      (r.body = "" → handleOutcome (.success r) = .ok (Json.obj []))
      ∧ (∀ v, jsonParse r.body = .ok v → handleOutcome (.success r) = .ok v)
      ∧ Json.obj [] ≠ Json.null := by
  intro r h
  refine ⟨?_, ?_, by intro hc; exact Json.noConfusion hc⟩
  · intro hb
    simp [handleOutcome, tryRequest, h, hb]
  · intro v hv
    by_cases hb : r.body = ""
    · have he : jsonParse "" = Except.error "Unexpected end of JSON input" := rfl
      rw [hb, he] at hv
      exact Except.noConfusion hv
    · simp [handleOutcome, tryRequest, h, hb, hv]

/-- Witness for C4 at concrete inputs: a 200 with empty body resolves to
the empty object, and a 200 with body "[]" resolves to the empty
array. -/
theorem c4_success_body_witness :
    handleOutcome (.success { status := 200, statusText := "OK", body := "" }) =
      .ok (Json.obj [])
    ∧ handleOutcome (.success { status := 200, statusText := "OK", body := "[]" }) =
      .ok (Json.arr []) := by
  constructor
  · exact (c4_success_body { status := 200, statusText := "OK", body := "" } rfl).1 rfl
  · exact (c4_success_body { status := 200, statusText := "OK", body := "[]" } rfl).2.1
      (Json.arr []) rfl

/-- C5 (confirmed): a 2xx response with a non-empty body that does not
parse as JSON rejects with an `ApiError` of status 0 whose status text
is the parser's own error message — the parse failure is surfaced, not
swallowed. -/
theorem c5_malformed_success_body :
    ∀ r : Response, r.ok = true → r.body ≠ "" →
      ∀ msg, jsonParse r.body = .error msg →
        handleOutcome (.success r) = .error { status := 0, statusText := msg, data := none } := by
  intro r h hb msg hm
  simp [handleOutcome, tryRequest, h, hb, hm, normalizeCatch]

/-- Witness for C5 at a concrete input: a 200 whose body is the
non-JSON text "oops" rejects with status 0 and the parser's message. -/
theorem c5_malformed_success_body_witness :
    handleOutcome (.success { status := 200, statusText := "OK", body := "oops" }) =
      .error { status := 0, statusText := "Unexpected token o in JSON", data := none } :=
  c5_malformed_success_body { status := 200, statusText := "OK", body := "oops" } rfl
    (by decide) "Unexpected token o in JSON" rfl

/-- C6 (corrected), counterexample to the claim as stated: an abort for
a reason other than the client-side timeout (here, a platform-initiated
abort thrown while the network fails 5 ms into a 30000 ms window) is
mapped by the `error.name === 'AbortError'` test to the 408 sentinel,
not to a status-0 `ApiError` carrying the underlying message. -/
theorem c6_abort_counterexample :
    handleOutcome (fetchOutcome (.netError 5 "AbortError" "Fetch was aborted by the browser") 30000) =
      .error { status := 408, statusText := "Request Timeout", data := none }
    ∧ handleOutcome (fetchOutcome (.netError 5 "AbortError" "Fetch was aborted by the browser") 30000) ≠
      .error { status := 0, statusText := "Fetch was aborted by the browser", data := none } := by
  refine ⟨rfl, ?_⟩
  intro hc
  rw [show handleOutcome
        (fetchOutcome (.netError 5 "AbortError" "Fetch was aborted by the browser") 30000) =
      .error { status := 408, statusText := "Request Timeout", data := none } from rfl] at hc
  simp [ApiError.mk.injEq] at hc

/-- C6 (corrected, amended): every transport-level exception whose name
is not "AbortError" rejects with an `ApiError` of status 0 carrying the
underlying exception's message; a thrown non-`Error` value rejects with
status 0 and the fixed message "Unknown Error"; and every exception
named "AbortError" — whatever caused it — is mapped to the 408 timeout
sentinel. -/
theorem c6_transport_errors :
    (∀ name message, name ≠ "AbortError" →
        handleOutcome (.throwErr name message) =
          .error { status := 0, statusText := message, data := none })
    ∧ handleOutcome .throwNonError =
        .error { status := 0, statusText := "Unknown Error", data := none }
    ∧ (∀ message, handleOutcome (.throwErr "AbortError" message) =
        .error { status := 408, statusText := "Request Timeout", data := none }) := by
  refine ⟨?_, rfl, fun _ => rfl⟩
  intro name message h
  simp [handleOutcome, tryRequest, normalizeCatch, h]

/-- Witness for C6's amended theorem at a concrete input: a network
failure rejects with status 0 and the failure's message. -/
theorem c6_transport_errors_witness :
    handleOutcome (.throwErr "TypeError" "NetworkError when attempting to fetch resource") =
      .error { status := 0, statusText := "NetworkError when attempting to fetch resource",
               data := none } :=
  c6_transport_errors.1 "TypeError" "NetworkError when attempting to fetch resource" (by decide)

/-- C7 (confirmed): on every execution of the generic call — success,
HTTP error, client-side timeout, transport error, or a parse failure
after a delivered response — the abort timer armed at call start is
disarmed before the call returns, and the instrumented control flow
computes the same result as the plain one, so a completed call leaves
no armed timer behind to fire a delayed abort. -/
theorem c7_timer_always_cleared :
    ∀ o : FetchOutcome,
      (requestWithTimer o).2 = false ∧ (requestWithTimer o).1 = handleOutcome o := by
  intro o
  cases o with
  | success r =>
    by_cases h : r.ok = false
    · constructor <;> simp [requestWithTimer, handleOutcome, tryRequest, h]
    · by_cases hb : r.body = ""
      · constructor <;> simp [requestWithTimer, handleOutcome, tryRequest, h, hb]
      · cases hj : jsonParse r.body with
        | ok v => constructor <;> simp [requestWithTimer, handleOutcome, tryRequest, h, hb, hj]
        | error msg =>
          constructor <;> simp [requestWithTimer, handleOutcome, tryRequest, h, hb, hj]
  | throwErr name message => exact ⟨rfl, rfl⟩
  | throwNonError => exact ⟨rfl, rfl⟩

/-- C8 (corrected), counterexample to the claim as stated: a present
but falsy body — here the value `false` — is not JSON-serialized into
the request; the request is sent with no body at all. -/
theorem c8_falsy_body_counterexample :
    (buildRequest none "/generator/form" { body := some (Json.bool false) }).body = none
    ∧ (buildRequest none "/generator/form" { body := some (Json.bool false) }).body ≠
      some (jsonStringify (Json.bool false)) := by
  refine ⟨rfl, ?_⟩
  intro hc
  rw [show (buildRequest none "/generator/form" { body := some (Json.bool false) }).body = none
      from rfl] at hc
  exact Option.noConfusion hc

/-- C8 (corrected, amended): every generic call is issued to the base
URL concatenated with the endpoint, with credentials included, with the
given method, with `Content-Type: application/json` merged under the
caller's headers so that a caller-supplied binding wins on conflict,
and with the body JSON-serialized when it is present and truthy — a
falsy body (and an absent one) yields a request with no body. -/
theorem c8_request_shape :
    ∀ (env : Option String) (endpoint : String) (opts : RequestOptions),
      (buildRequest env endpoint opts).url = API_BASE_URL env ++ endpoint
      ∧ (buildRequest env endpoint opts).credentials = "include"
      ∧ (buildRequest env endpoint opts).method = opts.method
      ∧ (∀ k v, objGet opts.headers k = some v →
          objGet (buildRequest env endpoint opts).headers k = some v)
      ∧ (objGet opts.headers "Content-Type" = none →
          objGet (buildRequest env endpoint opts).headers "Content-Type" =
            some "application/json")
      ∧ (∀ b, opts.body = some b → truthy b = true →
          (buildRequest env endpoint opts).body = some (jsonStringify b))
      ∧ (∀ b, opts.body = some b → truthy b = false →
          (buildRequest env endpoint opts).body = none)
      ∧ (opts.body = none → (buildRequest env endpoint opts).body = none) := by
  intro env endpoint opts
  refine ⟨rfl, rfl, rfl, ?_, ?_, ?_, ?_, ?_⟩
  · intro k v h
    simp [buildRequest, objGet, h]
  · intro h
    simp [buildRequest, objGet, h]
  · intro b hb ht
    simp [buildRequest, hb, ht]
  · intro b hb ht
    simp [buildRequest, hb, ht]
  · intro h
    simp [buildRequest, h]

/-- Witness for C8's amended theorem at concrete inputs: a
caller-supplied `Content-Type` wins over the default, and a truthy
object body is serialized. -/
theorem c8_request_shape_witness :
    objGet (buildRequest none "/auth/login"
        { headers := [("Content-Type", "text/plain")],
          body := some (Json.obj [("a", Json.num 1)]) }).headers "Content-Type" =
      some "text/plain"
    ∧ (buildRequest none "/auth/login"
        { headers := [("Content-Type", "text/plain")],
          body := some (Json.obj [("a", Json.num 1)]) }).body =
      some (jsonStringify (Json.obj [("a", Json.num 1)])) := by
  constructor
  · exact (c8_request_shape none "/auth/login"
      { headers := [("Content-Type", "text/plain")],
        body := some (Json.obj [("a", Json.num 1)]) }).2.2.2.1 "Content-Type" "text/plain" rfl
  · exact (c8_request_shape none "/auth/login"
      { headers := [("Content-Type", "text/plain")],
        body := some (Json.obj [("a", Json.num 1)]) }).2.2.2.2.2.1
      (Json.obj [("a", Json.num 1)]) rfl rfl

/-- C9 (confirmed): the upload helper issues a POST to the base URL
concatenated with the endpoint with credentials included and no
explicit `Content-Type` header, its form payload is the file under the
fixed field name "file" plus one part per extra string field, it
applies the same non-2xx status check and JSON error-detail extraction
as the generic path (on such a response it raises exactly what the
generic path's `try` block raises), and it has no timeout/cancellation:
the network outcome is delivered however late it completes, and a
hanging network call never settles. -/
theorem c9_upload_shape :
    ∀ (env : Option String) (endpoint : String) (f : JsFile)
      (extras : List (String × String)),
      (buildUploadRequest env endpoint f (some extras)).url = API_BASE_URL env ++ endpoint
      ∧ (buildUploadRequest env endpoint f (some extras)).method = "POST"
      ∧ (buildUploadRequest env endpoint f (some extras)).credentials = "include"
      ∧ objGet (buildUploadRequest env endpoint f (some extras)).headers "Content-Type" = none
      ∧ (buildUploadRequest env endpoint f (some extras)).formData =
          ("file", .filePart f) :: extras.map (fun kv => (kv.1, .fieldPart kv.2))
      ∧ ((buildUploadRequest env endpoint f (some extras)).formData).length = extras.length + 1
      ∧ (∀ r : Response, r.ok = false →
          uploadHandle (.success r) = tryRequest (.success r)
          ∧ uploadHandle (.success r) =
            .error (.api { status := r.status, statusText := r.statusText,
                           data := some (errorDetail r.body) }))
      ∧ (∀ (t : Nat) (r : Response), uploadOutcome (.responds t r) = some (.success r))
      ∧ uploadOutcome .hangs = none := by
  intro env endpoint f extras
  refine ⟨rfl, rfl, rfl, rfl, rfl, ?_, ?_, fun _ _ => rfl, rfl⟩
  · simp [buildUploadRequest, buildFormData]
  · intro r h
    constructor <;> simp [uploadHandle, tryRequest, h]

/-- Witness for C9 at concrete inputs: an upload of one file with two
extra fields produces exactly three form parts, and a 413 response is
rejected exactly as on the generic path. -/
theorem c9_upload_shape_witness :
    ((buildUploadRequest none "/analyzer/upload" { fileName := "data.csv" }
        (some [("name", "run1"), ("rows", "100")])).formData).length = 3
    ∧ uploadHandle (.success { status := 413, statusText := "Payload Too Large", body := "" }) =
      tryRequest (.success { status := 413, statusText := "Payload Too Large", body := "" }) := by
  constructor
  · exact (c9_upload_shape none "/analyzer/upload" { fileName := "data.csv" }
      [("name", "run1"), ("rows", "100")]).2.2.2.2.2.1
  · exact ((c9_upload_shape none "/analyzer/upload" { fileName := "data.csv" }
      [("name", "run1"), ("rows", "100")]).2.2.2.2.2.2.1
      { status := 413, statusText := "Payload Too Large", body := "" } rfl).1

/-- C10 (confirmed): a generic call whose body option is a falsy value
other than `undefined` — `0`, the empty string, `false`, or `null` — is
sent with no body at all rather than with the JSON serialization of
that value, and a truthy body value is JSON-serialized and
transmitted. -/
theorem c10_falsy_body_omitted :
    ∀ (env : Option String) (endpoint : String) (opts : RequestOptions) (b : Json),
      opts.body = some b →
      (truthy b = false → (buildRequest env endpoint opts).body = none)
      ∧ (truthy b = true →
          (buildRequest env endpoint opts).body = some (jsonStringify b)) := by
  intro env endpoint opts b hb
  constructor <;> intro ht <;> simp [buildRequest, hb, ht]

/-- Witness for C10 at a concrete input: the falsy body `0` yields a
request with no body. -/
theorem c10_falsy_body_omitted_witness :
    (buildRequest none "/user/datasets" { body := some (Json.num 0) }).body = none :=
  (c10_falsy_body_omitted none "/user/datasets" { body := some (Json.num 0) }
    (Json.num 0) rfl).1 rfl
